import Mathlib

/-
Verification of the zillow-mcp-server core against its design spec.

The embedding below is a shallow model, over exact rationals, of

  * the financial calculation engine in `src/zillow-api.ts`
    (`calculateAffordability`, lines 411-463, and
     `calculateMortgagePayment`, lines 468-500, plus the outbound
     query assembly of `searchProperties`, lines 223-250), and
  * the tool-dispatch handlers in `src/server/server.ts`
    (`zillow_city_neighborhood_real_estate_information`, lines 435-620,
     `calculateHomeAffordability`, lines 622-716, and
     `zillow_property_search`, lines 798-933).

JavaScript `number` arithmetic is modelled by exact rational arithmetic;
`Math.round` is modelled as `fun x => Int.floor (x + 1/2)`, which is the
JS semantics of rounding half toward positive infinity.  The one place
the code can produce a non-finite number (a zero amortization
denominator giving `0/0 = NaN` or `x/0 = Infinity`) is modelled
explicitly with `Option`: `none` stands for the non-finite value.
JS truthiness tests on optional numbers and strings (`x || d`,
`if (x) ...`) are modelled by explicit helpers: `0`, `""`, `undefined`
are falsy, everything else truthy.
-/

namespace Zillow

/-- JS `Math.round x` is `floor (x + 0.5)`: halves round toward plus infinity. -/
def jsRound (x : ℚ) : ℤ := ⌊x + 1/2⌋

/-- JS `x || d` for an optional numeric `x`: `undefined` and `0` fall back to `d`. -/
def jsNumOr (x : Option ℚ) (d : ℚ) : ℚ :=
  match x with
  | some v => if v = 0 then d else v
  | none => d

/-- JS `if (x) params.k = x` for an optional numeric filter: `undefined` and `0`
are dropped, every other value is kept. -/
def jsNumFilter (x : Option ℚ) : Option ℚ :=
  match x with
  | some v => if v = 0 then none else some v
  | none => none

/-- JS `s || d` for an optional string: `undefined` and `""` fall back to `d`. -/
def jsStrOr (s : Option String) (d : String) : String :=
  match s with
  | some v => if v = "" then d else v
  | none => d

/-- JS `if (s) params.k = s` for an optional string filter. -/
def jsStrFilter (s : Option String) : Option String :=
  match s with
  | some v => if v = "" then none else some v
  | none => none

/-- JS truthiness of an optional number: `undefined` and `0` are falsy. -/
def jsTruthyNum : Option ℚ → Bool
  | none => false
  | some v => v != 0

/-- Arguments of `ZillowApiClient.calculateAffordability` after the destructuring
on line 420 of `zillow-api.ts` (the `interestRate = 6.5` default has already
been applied, so the field here is always present). -/
structure AffordabilityParams where
  annualIncome : ℚ
  downPayment : ℚ
  creditScore : ℚ
  monthlyDebts : ℚ
  interestRate : ℚ
deriving DecidableEq

/-- Line 424: `monthlyIncome = annualIncome / 12`. -/
def monthlyIncome (p : AffordabilityParams) : ℚ := p.annualIncome / 12

/-- Line 425: `maxMonthlyPayment = (monthlyIncome * 0.43) - monthlyDebts`. -/
def maxMonthlyPayment (p : AffordabilityParams) : ℚ :=
  monthlyIncome p * 0.43 - p.monthlyDebts

/-- Line 428: `monthlyRate = interestRate / 100 / 12`. -/
def monthlyRate (p : AffordabilityParams) : ℚ := p.interestRate / 100 / 12

/-- Line 429: `numPayments = 30 * 12` (30-year mortgage). -/
def numPayments : ℕ := 30 * 12

/-- The compounding term `Math.pow(1 + monthlyRate, numPayments)` of line 430. -/
def compoundFactor (p : AffordabilityParams) : ℚ :=
  (1 + monthlyRate p) ^ numPayments

/-- The annuity factor `(pow - 1) / (monthlyRate * pow)` of line 430,
a function of the interest rate alone. -/
def annuityFactor (p : AffordabilityParams) : ℚ :=
  (compoundFactor p - 1) / (monthlyRate p * compoundFactor p)

/-- Line 430: `maxLoanAmount = maxMonthlyPayment * ((pow - 1) / (rate * pow))`. -/
def maxLoanAmount (p : AffordabilityParams) : ℚ :=
  maxMonthlyPayment p * annuityFactor p

/-- Line 432: `maxHomePrice = Math.round(maxLoanAmount + downPayment)`. -/
def maxHomePrice (p : AffordabilityParams) : ℤ :=
  jsRound (maxLoanAmount p + p.downPayment)

/-- Line 433: `estimatedMonthlyPayment = Math.round(maxMonthlyPayment)`. -/
def estimatedMonthlyPayment (p : AffordabilityParams) : ℤ :=
  jsRound (maxMonthlyPayment p)

/-- Line 436: the principal-and-interest part of the breakdown,
`Math.round(maxLoanAmount * (rate * pow) / (pow - 1))`. -/
def principalAndInterest (p : AffordabilityParams) : ℤ :=
  jsRound (maxLoanAmount p * (monthlyRate p * compoundFactor p) / (compoundFactor p - 1))

/-- Line 437: `propertyTax = Math.round(maxHomePrice * 0.012 / 12)`. -/
def propertyTax (p : AffordabilityParams) : ℤ :=
  jsRound ((maxHomePrice p : ℚ) * 0.012 / 12)

/-- Line 438: `insurance = Math.round(maxHomePrice * 0.004 / 12)`. -/
def insurance (p : AffordabilityParams) : ℤ :=
  jsRound ((maxHomePrice p : ℚ) * 0.004 / 12)

/-- Line 439: `pmi = downPayment < maxHomePrice * 0.2 ?
Math.round(maxLoanAmount * 0.005 / 12) : 0`. -/
def pmi (p : AffordabilityParams) : ℤ :=
  if p.downPayment < (maxHomePrice p : ℚ) * 0.2 then
    jsRound (maxLoanAmount p * 0.005 / 12)
  else 0

/-- The `breakdown` object of the affordability result (lines 449-455). -/
structure AffordabilityBreakdown where
  principalAndInterest : ℤ
  propertyTax : ℤ
  insurance : ℤ
  pmi : ℤ
  total : ℤ
deriving DecidableEq

/-- The object returned by `calculateAffordability` (lines 441-462).
The JS `dtiRatio` is `(...).toFixed(2)`, a decimal string; the field here
is the exact rational value that is formatted. -/
structure AffordabilityResult where
  maxHomePrice : ℤ
  monthlyPayment : ℤ
  loanAmount : ℤ
  downPayment : ℚ
  interestRate : ℚ
  creditScore : ℚ
  dtiRatio : ℚ
  breakdown : AffordabilityBreakdown
deriving DecidableEq

/-- `ZillowApiClient.calculateAffordability` (`zillow-api.ts`, lines 411-463). -/
def calculateAffordability (p : AffordabilityParams) : AffordabilityResult :=
  { maxHomePrice := maxHomePrice p
    monthlyPayment := estimatedMonthlyPayment p
    loanAmount := jsRound (maxLoanAmount p)
    downPayment := p.downPayment
    interestRate := p.interestRate
    creditScore := p.creditScore
    dtiRatio := ((estimatedMonthlyPayment p : ℚ) + p.monthlyDebts) / monthlyIncome p * 100
    breakdown :=
      { principalAndInterest := principalAndInterest p
        propertyTax := propertyTax p
        insurance := insurance p
        pmi := pmi p
        total := principalAndInterest p + propertyTax p + insurance p + pmi p } }

/-- Arguments of `ZillowApiClient.calculateMortgagePayment` (lines 468-473). -/
structure MortgageParams where
  homePrice : ℚ
  downPayment : ℚ
  interestRate : ℚ
  loanTerm : ℕ
deriving DecidableEq

/-- The object returned by `calculateMortgagePayment` (lines 489-499).
`monthlyPayment` is `none` exactly when the amortization denominator
`(1+r)^n - 1` is zero, i.e. when the JS code divides by zero and the
payment comes out NaN or Infinity; the dependent `totalPayment` and
`totalInterest` then propagate the non-finite value. -/
structure MortgageResult where
  homePrice : ℚ
  downPayment : ℚ
  loanAmount : ℚ
  interestRate : ℚ
  loanTerm : ℕ
  monthlyPayment : Option ℤ
  totalPayment : Option ℤ
  totalInterest : Option ℚ
  apr : ℚ
deriving DecidableEq

/-- Line 478: `monthlyRate = interestRate / 100 / 12`. -/
def mortgageMonthlyRate (p : MortgageParams) : ℚ := p.interestRate / 100 / 12

/-- Line 479: `numPayments = loanTerm * 12`. -/
def mortgageNumPayments (p : MortgageParams) : ℕ := p.loanTerm * 12

/-- The compounding term `Math.pow(1 + monthlyRate, numPayments)` of line 482. -/
def mortgageCompoundFactor (p : MortgageParams) : ℚ :=
  (1 + mortgageMonthlyRate p) ^ mortgageNumPayments p

/-- `ZillowApiClient.calculateMortgagePayment` (`zillow-api.ts`, lines 468-500). -/
def calculateMortgagePayment (p : MortgageParams) : MortgageResult :=
  let loanAmount := p.homePrice - p.downPayment
  let monthlyPayment : Option ℤ :=
    if mortgageCompoundFactor p - 1 = 0 then none
    else some (jsRound (loanAmount * (mortgageMonthlyRate p * mortgageCompoundFactor p)
      / (mortgageCompoundFactor p - 1)))
  { homePrice := p.homePrice
    downPayment := p.downPayment
    loanAmount := loanAmount
    interestRate := p.interestRate
    loanTerm := p.loanTerm
    monthlyPayment := monthlyPayment
    totalPayment := monthlyPayment.map (fun m => m * (mortgageNumPayments p : ℤ))
    totalInterest := monthlyPayment.map
      (fun m => ((m * (mortgageNumPayments p : ℤ) : ℤ) : ℚ) - loanAmount)
    apr := p.interestRate + 0.2 }

/-! ### Outbound query assembly of `ZillowApiClient.searchProperties` -/

/-- The listing status selector sent to the provider. -/
inductive StatusType
  | ForSale
  | ForRent
deriving DecidableEq

/-- The `PropertySearchParams` argument of `ZillowApiClient.searchProperties`
(`zillow-api.ts`, lines 14-26): every filter is optional. -/
structure ClientSearchParams where
  location : String
  status_type : Option StatusType
  home_type : Option String
  minPrice : Option ℚ
  maxPrice : Option ℚ
  bathsMin : Option ℚ
  bedsMin : Option ℚ
  sqftMin : Option ℚ
  sqftMax : Option ℚ
  page : Option ℚ
  sort : Option String
deriving DecidableEq

/-- The `apiParams` query object that `searchProperties` actually sends
(lines 226-240): `none` for an absent key. -/
structure OutboundQuery where
  location : String
  status_type : StatusType
  page : ℚ
  home_type : Option String
  minPrice : Option ℚ
  maxPrice : Option ℚ
  bathsMin : Option ℚ
  bedsMin : Option ℚ
  sqftMin : Option ℚ
  sqftMax : Option ℚ
  sort : Option String
deriving DecidableEq

/-- The query-assembly part of `ZillowApiClient.searchProperties`
(`zillow-api.ts`, lines 226-240): `status_type` and `page` take JS `||`
defaults, each optional filter is added only when truthy. -/
def searchPropertiesApiParams (p : ClientSearchParams) : OutboundQuery :=
  { location := p.location
    status_type := p.status_type.getD StatusType.ForSale
    page := jsNumOr p.page 1
    home_type := jsStrFilter p.home_type
    minPrice := jsNumFilter p.minPrice
    maxPrice := jsNumFilter p.maxPrice
    bathsMin := jsNumFilter p.bathsMin
    bedsMin := jsNumFilter p.bedsMin
    sqftMin := jsNumFilter p.sqftMin
    sqftMax := jsNumFilter p.sqftMax
    sort := p.sort }

/-! ### Provider data shapes -/

/-- One element of the `props` array of a provider search response
(the `PropertyDetails` fields the handlers read). -/
structure ApiProp where
  zpid : String
  address : String
  price : ℚ
  bedrooms : ℚ
  bathrooms : ℚ
  livingArea : ℚ
  propertyType : String
  listingStatus : Option String
  imgSrc : Option String
  latitude : Option ℚ
  longitude : Option ℚ
  daysOnZillow : Option ℚ
  lotAreaValue : Option ℚ
  lotAreaUnit : Option String
  hasImage : Option Bool
deriving DecidableEq

/-- A provider `SearchResult` (`zillow-api.ts`, lines 135-141). -/
structure SearchResult where
  totalResultCount : ℕ
  resultsPerPage : ℕ
  totalPages : ℕ
  currentPage : ℕ
  props : List ApiProp
deriving DecidableEq

/-! ### The `calculateHomeAffordability` handler defaults -/

/-- The parsed arguments of the `calculateHomeAffordability` tool
(`server.ts`, lines 278-284): every field optional. -/
structure AffordabilityArgs where
  annualIncome : Option ℚ
  downPayment : Option ℚ
  creditScore : Option ℚ
  monthlyDebts : Option ℚ
  location : Option String
deriving DecidableEq

/-- The argument record the `calculateHomeAffordability` handler passes to
`calculateAffordability` (`server.ts`, lines 631-636): each field takes a JS
`||` default (`75000`, `50000`, `720`, `500`), and no `interestRate` is
passed, so the engine default `6.5` applies. -/
def calculateHomeAffordabilityInputs (args : AffordabilityArgs) : AffordabilityParams :=
  { annualIncome := jsNumOr args.annualIncome 75000
    downPayment := jsNumOr args.downPayment 50000
    creditScore := jsNumOr args.creditScore 720
    monthlyDebts := jsNumOr args.monthlyDebts 500
    interestRate := 6.5 }

/-! ### The `zillow_property_search` handler -/

/-- The listing intent of the property-search tool arguments. -/
inductive ListingType
  | forSale
  | forRent
deriving DecidableEq

/-- The parsed arguments of the `zillow_property_search` tool
(`server.ts`, lines 294-304). -/
structure PropertySearchArgs where
  location : String
  listingType : Option ListingType
  minPrice : Option ℚ
  maxPrice : Option ℚ
  bedrooms : Option ℚ
  bathrooms : Option ℚ
  propertyType : Option String
  sqftMin : Option ℚ
  sqftMax : Option ℚ
deriving DecidableEq

/-- The `filters` object echoed inside `structuredContent` (lines 854-862;
the mock branch, lines 907-913, leaves the sqft keys absent). -/
structure SearchFilters where
  minPrice : Option ℚ
  maxPrice : Option ℚ
  bedrooms : Option ℚ
  bathrooms : Option ℚ
  propertyType : Option String
  sqftMin : Option ℚ
  sqftMax : Option ℚ
deriving DecidableEq

/-- One property record of the `zillow_property_search` structured payload
(live transform lines 825-842, mock records lines 872-895).  Fields that a
branch leaves `undefined` are `none`. -/
structure PSProperty where
  id : String
  address : String
  price : ℚ
  bedrooms : ℚ
  bathrooms : ℚ
  sqft : Option ℚ
  propertyType : Option String
  imageUrl : Option String
  listingType : ListingType
  listingStatus : Option String
  daysOnZillow : Option ℚ
  latitude : Option ℚ
  longitude : Option ℚ
  lotAreaValue : Option ℚ
  lotAreaUnit : Option String
  hasImage : Option Bool
deriving DecidableEq

/-- The `structuredContent` payload of a `zillow_property_search` response.
`usingMockData` is `true` exactly when the mock branch set the key;
`currentPage`/`totalPages` are set only by the live branch. -/
structure PropertySearchStructured where
  location : String
  listingType : ListingType
  filters : SearchFilters
  properties : List PSProperty
  totalResults : ℕ
  currentPage : Option ℕ
  totalPages : Option ℕ
  usingMockData : Bool
deriving DecidableEq

/-- The response envelope of the `zillow_property_search` handler as far as
the dispatcher contract goes: either an error-flagged response with no
structured payload (the catch on lines 921-932) or a success carrying one.
The handler is a total function of this model: it never throws past the
dispatcher boundary. -/
structure PropertySearchResponse where
  isError : Bool
  structuredContent : Option PropertySearchStructured
deriving DecidableEq

/-- The state of the provider client as seen by one tool invocation:
`unconfigured` models a missing RAPIDAPI_KEY (`zillowApi === null`),
`failing` models a configured client whose search call throws, and
`live r` a configured client whose call resolves with `r`. -/
inductive ProviderState
  | unconfigured
  | failing
  | live (r : SearchResult)
deriving DecidableEq

/-- The live-branch transform of one provider record (lines 825-842). -/
def transformProperty (args : PropertySearchArgs) (prop : ApiProp) : PSProperty :=
  { id := prop.zpid
    address := prop.address
    price := prop.price
    bedrooms := prop.bedrooms
    bathrooms := prop.bathrooms
    sqft := some prop.livingArea
    propertyType := some prop.propertyType
    imageUrl := prop.imgSrc
    listingType := args.listingType.getD ListingType.forSale
    listingStatus := prop.listingStatus
    daysOnZillow := prop.daysOnZillow
    latitude := prop.latitude
    longitude := prop.longitude
    lotAreaValue := prop.lotAreaValue
    lotAreaUnit := prop.lotAreaUnit
    hasImage := prop.hasImage }

/-- The two fixed fallback records of the mock branch (lines 872-895). -/
def mockProperties (args : PropertySearchArgs) : List PSProperty :=
  [ { id := "1"
      address := "123 Main St, " ++ args.location
      price := 425000
      bedrooms := jsNumOr args.bedrooms 3
      bathrooms := jsNumOr args.bathrooms 2
      sqft := some 2000
      propertyType := some (jsStrOr args.propertyType "house")
      imageUrl := some "https://via.placeholder.com/400x300"
      listingType := args.listingType.getD ListingType.forSale
      listingStatus := none
      daysOnZillow := none
      latitude := none
      longitude := none
      lotAreaValue := none
      lotAreaUnit := none
      hasImage := none },
    { id := "2"
      address := "456 Oak Ave, " ++ args.location
      price := 385000
      bedrooms := jsNumOr args.bedrooms 3
      bathrooms := 2.5
      sqft := some 1850
      propertyType := some (jsStrOr args.propertyType "house")
      imageUrl := some "https://via.placeholder.com/400x300"
      listingType := args.listingType.getD ListingType.forSale
      listingStatus := none
      daysOnZillow := none
      latitude := none
      longitude := none
      lotAreaValue := none
      lotAreaUnit := none
      hasImage := none } ]

/-- The `zillow_property_search` handler (`server.ts`, lines 798-933),
parameterized by the provider state.  The live branch caps the results at
the first 10 and reports provider paging metadata with `|| 1` fallbacks;
the unconfigured branch returns the two mock records with
`usingMockData: true`; a throwing provider call lands in the catch, which
returns an error-flagged response with no structured payload. -/
def zillowPropertySearch (st : ProviderState) (args : PropertySearchArgs) :
    PropertySearchResponse :=
  match st with
  | ProviderState.live searchResult =>
    let properties := (searchResult.props.take 10).map (transformProperty args)
    { isError := false
      structuredContent := some
        { location := args.location
          listingType := args.listingType.getD ListingType.forSale
          filters :=
            { minPrice := args.minPrice
              maxPrice := args.maxPrice
              bedrooms := args.bedrooms
              bathrooms := args.bathrooms
              propertyType := args.propertyType
              sqftMin := args.sqftMin
              sqftMax := args.sqftMax }
          properties := properties
          totalResults :=
            if searchResult.totalResultCount = 0 then properties.length
            else searchResult.totalResultCount
          currentPage := some (if searchResult.currentPage = 0 then 1 else searchResult.currentPage)
          totalPages := some (if searchResult.totalPages = 0 then 1 else searchResult.totalPages)
          usingMockData := false } }
  | ProviderState.unconfigured =>
    { isError := false
      structuredContent := some
        { location := args.location
          listingType := args.listingType.getD ListingType.forSale
          filters :=
            { minPrice := args.minPrice
              maxPrice := args.maxPrice
              bedrooms := args.bedrooms
              bathrooms := args.bathrooms
              propertyType := args.propertyType
              sqftMin := none
              sqftMax := none }
          properties := mockProperties args
          totalResults := (mockProperties args).length
          currentPage := none
          totalPages := none
          usingMockData := true } }
  | ProviderState.failing =>
    { isError := true
      structuredContent := none }

/-! ### The `zillow_city_neighborhood_real_estate_information` handler -/

/-- The `propertyType` argument of the areas tool (its listing intent). -/
inductive AreaIntent
  | forSale
  | forRent
  | both
deriving DecidableEq

/-- One location candidate from `searchLocationSuggestions`
(`resultGroups[0].results[n]` with its `metaData`). -/
structure AreaCandidate where
  display : Option String
  name : Option String
  regionType : Option String
  lat : Option ℚ
  lng : Option ℚ
deriving DecidableEq

/-- The outcome of one `searchPropertiesByCoordinates` call: the promise
either rejects (`thrown`) or resolves with a result. -/
inductive CallOutcome
  | thrown
  | ok (r : SearchResult)
deriving DecidableEq

/-- One candidate together with the provider outcomes its coordinate
searches would see. -/
structure AreaCandidateData where
  cand : AreaCandidate
  saleOutcome : CallOutcome
  rentOutcome : CallOutcome
deriving DecidableEq

/-- One entry of the `areas` array the handler assembles (lines 512-521). -/
structure AreaSummary where
  name : String
  propertyCount : ℕ
  rentalCount : ℕ
  avgPrice : ℚ
  type : String
  latitude : Option ℚ
  longitude : Option ℚ
deriving DecidableEq

/-- One entry of the `featuredProperties` array (lines 478-491); the JS
`description` template string is not modelled.  `price` is whatever the
handler assigns on line 481. -/
structure FeaturedProperty where
  id : String
  address : Option String
  price : ℕ
  subtitle : String
  imageUrl : Option String
  latitude : Option ℚ
  longitude : Option ℚ
  bedrooms : ℚ
  bathrooms : ℚ
  sqft : ℚ
  propertyType : String
deriving DecidableEq

/-- Whether the intent argument lets the handler issue the ForSale
coordinate search (line 464: `for-sale`, `both`, or absent). -/
def saleIntent : Option AreaIntent → Bool
  | some AreaIntent.forSale => true
  | some AreaIntent.both => true
  | none => true
  | some AreaIntent.forRent => false

/-- Whether the intent argument lets the handler issue the ForRent
coordinate search (line 498: `for-rent` or `both`). -/
def rentIntent : Option AreaIntent → Bool
  | some AreaIntent.forRent => true
  | some AreaIntent.both => true
  | some AreaIntent.forSale => false
  | none => false

/-- JS `a || b` where both operands are optional strings. -/
def jsStrOrOpt (a : Option String) (b : Option String) : Option String :=
  match a with
  | some v => if v = "" then b else some v
  | none => b

/-- The featured record pushed for one listing of an area (lines 478-491):
`price` is the enclosing area's `propertyCount`, not the listing's price. -/
def mkFeaturedProperty (propertyCount : ℕ) (candDisplay : Option String)
    (prop : ApiProp) : FeaturedProperty :=
  { id := jsStrOr (some prop.zpid) "random"
    address := jsStrOrOpt (some prop.address) candDisplay
    price := propertyCount
    subtitle := jsStrOr prop.listingStatus "For Sale"
    imageUrl := prop.imgSrc
    latitude := prop.latitude
    longitude := prop.longitude
    bedrooms := prop.bedrooms
    bathrooms := prop.bathrooms
    sqft := prop.livingArea
    propertyType := prop.propertyType }

/-- The `featuredProperties` pushes of one loop iteration (lines 474-494):
guarded by the outer length check, the first two listings of the area's
sale results are appended while fewer than 8 records are collected. -/
def pushFeatured (propertyCount : ℕ) (candDisplay : Option String)
    (props : List ApiProp) (featured : List FeaturedProperty) :
    List FeaturedProperty :=
  if featured.length < 8 then
    (props.take 2).foldl
      (fun acc prop =>
        if acc.length < 8 then acc ++ [mkFeaturedProperty propertyCount candDisplay prop]
        else acc)
      featured
  else featured

/-- The `AreaSummary` pushed at the end of one loop iteration
(lines 512-521); the generated `description` string is not modelled. -/
def mkAreaSummary (argLocation : String) (c : AreaCandidate)
    (propertyCount rentalCount : ℕ) : AreaSummary :=
  { name := jsStrOr c.display (jsStrOr c.name argLocation)
    propertyCount := propertyCount
    rentalCount := rentalCount
    avgPrice := 0
    type := jsStrOr c.regionType "neighborhood"
    latitude := c.lat
    longitude := c.lng }

/-- The loop state of the areas handler: the assembled summaries and
featured records, plus the trace of coordinate searches issued against the
provider (used to state which calls the handler makes). -/
structure AreaLoopState where
  areas : List AreaSummary
  featured : List FeaturedProperty
  calls : List StatusType
deriving DecidableEq

/-- One iteration of the `for (const location of locations)` loop of the
areas handler (`server.ts`, lines 453-522).  The inner try/catch means a
thrown sale search skips the rent search of the same iteration; counts
default to 0 on any skipped or thrown call; the `AreaSummary` is always
pushed. -/
def processCandidate (intent : Option AreaIntent) (argLocation : String)
    (st : AreaLoopState) (cd : AreaCandidateData) : AreaLoopState :=
  let c := cd.cand
  if jsTruthyNum c.lat && jsTruthyNum c.lng then
    if saleIntent intent then
      match cd.saleOutcome with
      | CallOutcome.thrown =>
        { areas := st.areas ++ [mkAreaSummary argLocation c 0 0]
          featured := st.featured
          calls := st.calls ++ [StatusType.ForSale] }
      | CallOutcome.ok saleResults =>
        let propertyCount := saleResults.totalResultCount
        let featured := pushFeatured propertyCount c.display saleResults.props st.featured
        if rentIntent intent then
          match cd.rentOutcome with
          | CallOutcome.thrown =>
            { areas := st.areas ++ [mkAreaSummary argLocation c propertyCount 0]
              featured := featured
              calls := st.calls ++ [StatusType.ForSale, StatusType.ForRent] }
          | CallOutcome.ok rentResults =>
            { areas := st.areas ++ [mkAreaSummary argLocation c propertyCount rentResults.totalResultCount]
              featured := featured
              calls := st.calls ++ [StatusType.ForSale, StatusType.ForRent] }
        else
          { areas := st.areas ++ [mkAreaSummary argLocation c propertyCount 0]
            featured := featured
            calls := st.calls ++ [StatusType.ForSale] }
    else if rentIntent intent then
      match cd.rentOutcome with
      | CallOutcome.thrown =>
        { areas := st.areas ++ [mkAreaSummary argLocation c 0 0]
          featured := st.featured
          calls := st.calls ++ [StatusType.ForRent] }
      | CallOutcome.ok rentResults =>
        { areas := st.areas ++ [mkAreaSummary argLocation c 0 rentResults.totalResultCount]
          featured := st.featured
          calls := st.calls ++ [StatusType.ForRent] }
    else
      { areas := st.areas ++ [mkAreaSummary argLocation c 0 0]
        featured := st.featured
        calls := st.calls }
  else
    { areas := st.areas ++ [mkAreaSummary argLocation c 0 0]
      featured := st.featured
      calls := st.calls }

/-- The candidate loop of the live branch of the areas handler: at most 5
candidates are consumed (`results.slice(0, 5)`, line 451) in provider
order. -/
def runAreaLoop (intent : Option AreaIntent) (argLocation : String)
    (cds : List AreaCandidateData) : AreaLoopState :=
  (cds.take 5).foldl (processCandidate intent argLocation) ⟨[], [], []⟩

/-! ### Named inputs used by the concrete checks -/

/-- The affordability input singled out by the spec (section 8):
income 95000, down payment 65000, credit 740, debts 450, rate 6.5. -/
def sampleParams : AffordabilityParams :=
  { annualIncome := 95000, downPayment := 65000, creditScore := 740
    monthlyDebts := 450, interestRate := 6.5 }

/-- A borrower with no income and committed debts: the maximum monthly
housing payment is negative. -/
def zeroIncomeParams : AffordabilityParams :=
  { annualIncome := 0, downPayment := 50000, creditScore := 720
    monthlyDebts := 100, interestRate := 6.5 }

/-- A tiny income and no down payment: the computed loan is so small that
the PMI monthly premium rounds to 0 although the borrower is below the
20 percent threshold. -/
def tinyIncomeParams : AffordabilityParams :=
  { annualIncome := 12, downPayment := 0, creditScore := 720
    monthlyDebts := 0, interestRate := 6.5 }

/-- The mortgage-simulator dispatcher defaults (home 400000, down 80000,
term 30) with a zero interest rate. -/
def zeroRateMortgage : MortgageParams :=
  { homePrice := 400000, downPayment := 80000, interestRate := 0, loanTerm := 30 }

/-- Property-search arguments matching the spec's fallback example:
location Seattle with a 3-bedroom filter. -/
def seattleSearchArgs : PropertySearchArgs :=
  { location := "Seattle, WA", listingType := none, minPrice := none
    maxPrice := none, bedrooms := some 3, bathrooms := none
    propertyType := none, sqftMin := none, sqftMax := none }

/-- A concrete provider listing used to exercise the areas loop. -/
def austinProp : ApiProp :=
  { zpid := "111", address := "1 Elm St", price := 500000, bedrooms := 3
    bathrooms := 2, livingArea := 1500, propertyType := "House"
    listingStatus := some "For Sale", imgSrc := none, latitude := some 30
    longitude := some (-97), daysOnZillow := none, lotAreaValue := none
    lotAreaUnit := none, hasImage := none }

/-- A concrete coordinate-search result: 42 matches, one listing page. -/
def austinResult : SearchResult :=
  { totalResultCount := 42, resultsPerPage := 10, totalPages := 5
    currentPage := 1, props := [austinProp] }

/-- A concrete location candidate whose for-sale search succeeds with
`austinResult` and whose for-rent search would throw. -/
def austinCand : AreaCandidateData :=
  { cand := { display := some "Austin, TX", name := none, regionType := none
              lat := some 30, lng := some (-97) }
    saleOutcome := CallOutcome.ok austinResult
    rentOutcome := CallOutcome.thrown }

/-! ### Helper lemmas about the engine -/

theorem jsRound_le_jsRound {a b : ℚ} (h : a ≤ b) : jsRound a ≤ jsRound b :=
  Int.floor_le_floor (by linarith)

theorem jsRound_nonpos {a : ℚ} (h : a ≤ 0) : jsRound a ≤ 0 := by
  have : ⌊a + 1/2⌋ < 1 := by
    rw [Int.floor_lt]
    push_cast
    linarith
  unfold jsRound
  omega

theorem jsRound_pos {a : ℚ} (h : 1/2 ≤ a) : 0 < jsRound a := by
  have : (1 : ℤ) ≤ ⌊a + 1/2⌋ := by
    rw [Int.le_floor]
    push_cast
    linarith
  unfold jsRound
  omega

theorem monthlyRate_pos {p : AffordabilityParams} (h : 0 < p.interestRate) :
    0 < monthlyRate p := by
  unfold monthlyRate
  positivity

theorem one_lt_compoundFactor {p : AffordabilityParams} (h : 0 < p.interestRate) :
    1 < compoundFactor p := by
  have hmr := monthlyRate_pos h
  unfold compoundFactor
  exact one_lt_pow₀ (by linarith) (by norm_num [numPayments])

theorem annuityFactor_pos {p : AffordabilityParams} (h : 0 < p.interestRate) :
    0 < annuityFactor p := by
  have hmr := monthlyRate_pos h
  have hcf := one_lt_compoundFactor h
  unfold annuityFactor
  have hnum : 0 < compoundFactor p - 1 := by linarith
  have hden : 0 < monthlyRate p * compoundFactor p :=
    mul_pos hmr (by linarith)
  exact div_pos hnum hden

/-- For a positive rate the principal-and-interest component of the breakdown
is the rounded maximum monthly payment: the `maxLoanAmount * (r*pow)/(pow-1)`
expression of line 436 cancels exactly against the annuity factor that
produced `maxLoanAmount` on line 430. -/
theorem principalAndInterest_eq_estimatedMonthlyPayment
    {p : AffordabilityParams} (h : 0 < p.interestRate) :
    principalAndInterest p = estimatedMonthlyPayment p := by
  have hmr := monthlyRate_pos h
  have hcf := one_lt_compoundFactor h
  have hcf0 : compoundFactor p ≠ 0 := by linarith
  have hcf1 : compoundFactor p - 1 ≠ 0 := by linarith
  have hmr0 : monthlyRate p ≠ 0 := ne_of_gt hmr
  have key : maxLoanAmount p * (monthlyRate p * compoundFactor p) / (compoundFactor p - 1)
      = maxMonthlyPayment p := by
    unfold maxLoanAmount annuityFactor
    field_simp
  unfold principalAndInterest estimatedMonthlyPayment
  rw [key]

/-! ### Claim theorems -/

/-- C1 (counterexample): at the input singled out by the spec
(income 95000, down payment 65000, credit 740, debts 450, rate 6.5) the four
breakdown components sum to 3858 while the reported monthly payment is 2954,
904 units apart — the claimed within-1-unit invariant fails. -/
theorem breakdown_sum_far_from_monthlyPayment_at_sample :
    (calculateAffordability sampleParams).breakdown.principalAndInterest
        + (calculateAffordability sampleParams).breakdown.propertyTax
        + (calculateAffordability sampleParams).breakdown.insurance
        + (calculateAffordability sampleParams).breakdown.pmi = 3858
      ∧ (calculateAffordability sampleParams).monthlyPayment = 2954
      ∧ ¬ ((calculateAffordability sampleParams).breakdown.principalAndInterest
          + (calculateAffordability sampleParams).breakdown.propertyTax
          + (calculateAffordability sampleParams).breakdown.insurance
          + (calculateAffordability sampleParams).breakdown.pmi
          - (calculateAffordability sampleParams).monthlyPayment).natAbs ≤ 1 := by
  have hpi : (calculateAffordability sampleParams).breakdown.principalAndInterest = 2954 := by
    unfold sampleParams calculateAffordability principalAndInterest maxLoanAmount
      annuityFactor compoundFactor maxMonthlyPayment monthlyIncome monthlyRate
      numPayments jsRound
    norm_num
  have htax : (calculateAffordability sampleParams).breakdown.propertyTax = 532 := by
    unfold sampleParams calculateAffordability propertyTax maxHomePrice maxLoanAmount
      annuityFactor compoundFactor maxMonthlyPayment monthlyIncome monthlyRate
      numPayments jsRound
    norm_num
  have hins : (calculateAffordability sampleParams).breakdown.insurance = 177 := by
    unfold sampleParams calculateAffordability insurance maxHomePrice maxLoanAmount
      annuityFactor compoundFactor maxMonthlyPayment monthlyIncome monthlyRate
      numPayments jsRound
    norm_num
  have hpmi : (calculateAffordability sampleParams).breakdown.pmi = 195 := by
    unfold sampleParams calculateAffordability pmi maxHomePrice maxLoanAmount
      annuityFactor compoundFactor maxMonthlyPayment monthlyIncome monthlyRate
      numPayments jsRound
    norm_num
  have hmp : (calculateAffordability sampleParams).monthlyPayment = 2954 := by
    unfold sampleParams calculateAffordability estimatedMonthlyPayment
      maxMonthlyPayment monthlyIncome jsRound
    norm_num
  refine ⟨?_, hmp, ?_⟩
  · rw [hpi, htax, hins, hpmi]
    decide
  · rw [hpi, htax, hins, hpmi, hmp]
    decide

/-- C1 (amended): for positive annual income and positive interest rate the
four breakdown components sum exactly to the reported `breakdown.total`, and
it is the `principalAndInterest` component alone that equals the reported
monthly payment; the full component sum exceeds the monthly payment by the
tax, insurance and PMI components. -/
theorem breakdown_total_is_component_sum_and_pi_is_payment
    (p : AffordabilityParams) (_hinc : 0 < p.annualIncome) (hrate : 0 < p.interestRate) :
    (calculateAffordability p).breakdown.total
        = (calculateAffordability p).breakdown.principalAndInterest
          + (calculateAffordability p).breakdown.propertyTax
          + (calculateAffordability p).breakdown.insurance
          + (calculateAffordability p).breakdown.pmi
      ∧ (calculateAffordability p).breakdown.principalAndInterest
        = (calculateAffordability p).monthlyPayment :=
  ⟨rfl, principalAndInterest_eq_estimatedMonthlyPayment hrate⟩

/-- C1 (witness): the amended statement instantiated at the spec's sample
input, with both positivity hypotheses discharged there. -/
theorem breakdown_total_witness :
    0 < sampleParams.annualIncome ∧ 0 < sampleParams.interestRate ∧
      (calculateAffordability sampleParams).breakdown.principalAndInterest
        = (calculateAffordability sampleParams).monthlyPayment :=
  ⟨by norm_num [sampleParams], by norm_num [sampleParams],
    (breakdown_total_is_component_sum_and_pi_is_payment sampleParams
      (by norm_num [sampleParams]) (by norm_num [sampleParams])).2⟩

/-- C2 (code evaluation at the failing input): with the dispatcher default
home price 400000, down payment 80000 and term 30, a zero interest rate makes
`calculateMortgagePayment` divide by the zero amortization denominator: the
monthly payment and everything derived from it is the non-finite JS value
(modelled `none`), and no error of any kind is raised — the function still
returns a result record. -/
theorem mortgagePayment_zero_rate_returns_nan :
    (calculateMortgagePayment zeroRateMortgage).monthlyPayment = none
      ∧ (calculateMortgagePayment zeroRateMortgage).totalPayment = none
      ∧ (calculateMortgagePayment zeroRateMortgage).totalInterest = none
      ∧ (calculateMortgagePayment zeroRateMortgage).loanAmount = 320000 := by
  have hden : mortgageCompoundFactor zeroRateMortgage - 1 = 0 := by
    unfold zeroRateMortgage mortgageCompoundFactor mortgageMonthlyRate mortgageNumPayments
    norm_num
  refine ⟨?_, ?_, ?_, ?_⟩
  · simp [calculateMortgagePayment, hden]
  · simp [calculateMortgagePayment, hden]
  · simp [calculateMortgagePayment, hden]
  · simp only [calculateMortgagePayment, zeroRateMortgage]
    norm_num

/-- C3 (counterexample): with zero income, 50000 down and 100 of monthly
debts the maximum monthly housing payment is negative (not just zero), and
the code reports a monthly payment of -100 and a home price of 34179 — not
the claimed down payment rounded (50000) with payment 0. -/
theorem nonpositive_budget_counterexample :
    maxMonthlyPayment zeroIncomeParams ≤ 0
      ∧ (calculateAffordability zeroIncomeParams).monthlyPayment = -100
      ∧ (calculateAffordability zeroIncomeParams).maxHomePrice = 34179
      ∧ jsRound zeroIncomeParams.downPayment = 50000
      ∧ ¬ ((calculateAffordability zeroIncomeParams).maxHomePrice
            = jsRound zeroIncomeParams.downPayment
          ∧ (calculateAffordability zeroIncomeParams).monthlyPayment = 0) := by
  have hb : maxMonthlyPayment zeroIncomeParams ≤ 0 := by
    unfold zeroIncomeParams maxMonthlyPayment monthlyIncome
    norm_num
  have hmp : (calculateAffordability zeroIncomeParams).monthlyPayment = -100 := by
    unfold zeroIncomeParams calculateAffordability estimatedMonthlyPayment
      maxMonthlyPayment monthlyIncome jsRound
    norm_num
  have hhp : (calculateAffordability zeroIncomeParams).maxHomePrice = 34179 := by
    unfold zeroIncomeParams calculateAffordability maxHomePrice maxLoanAmount
      annuityFactor compoundFactor maxMonthlyPayment monthlyIncome monthlyRate
      numPayments jsRound
    norm_num
  have hdp : jsRound zeroIncomeParams.downPayment = 50000 := by
    unfold zeroIncomeParams jsRound
    norm_num
  refine ⟨hb, hmp, hhp, hdp, ?_⟩
  rintro ⟨h1, -⟩
  rw [hhp, hdp] at h1
  exact absurd h1 (by decide)

/-- C3 (amended): when the maximum monthly housing payment is not positive
(at a positive rate), the code still succeeds and returns a result, and that
result satisfies `monthlyPayment = round(maxMonthlyPayment) ≤ 0` and
`maxHomePrice = round(maxLoanAmount + downPayment) ≤ round(downPayment)`:
the budget is carried through the loan formula rather than clamped.  Both
bounds can be attained with equality (a budget of -0.001 still rounds to a
payment of 0 and leaves the price at the rounded down payment), and both can
be strict, as the counterexample input shows. -/
theorem nonpositive_budget_passes_through
    (p : AffordabilityParams) (hrate : 0 < p.interestRate)
    (hbudget : maxMonthlyPayment p ≤ 0) :
    (calculateAffordability p).monthlyPayment ≤ 0
      ∧ (calculateAffordability p).maxHomePrice ≤ jsRound p.downPayment := by
  constructor
  · exact jsRound_nonpos hbudget
  · show maxHomePrice p ≤ jsRound p.downPayment
    have hf := annuityFactor_pos hrate
    have hloan : maxLoanAmount p ≤ 0 := by
      unfold maxLoanAmount
      exact mul_nonpos_iff.mpr (Or.inr ⟨hbudget, hf.le⟩)
    unfold maxHomePrice
    exact jsRound_le_jsRound (by linarith)

/-- C3 (witness): the amended statement instantiated at the zero-income
input, with both hypotheses discharged there. -/
theorem nonpositive_budget_witness :
    0 < zeroIncomeParams.interestRate
      ∧ maxMonthlyPayment zeroIncomeParams ≤ 0
      ∧ (calculateAffordability zeroIncomeParams).monthlyPayment ≤ 0
      ∧ (calculateAffordability zeroIncomeParams).maxHomePrice
          ≤ jsRound zeroIncomeParams.downPayment := by
  have h1 : 0 < zeroIncomeParams.interestRate := by norm_num [zeroIncomeParams]
  have h2 : maxMonthlyPayment zeroIncomeParams ≤ 0 := by
    unfold zeroIncomeParams maxMonthlyPayment monthlyIncome
    norm_num
  obtain ⟨h3, h4⟩ := nonpositive_budget_passes_through zeroIncomeParams h1 h2
  exact ⟨h1, h2, h3, h4⟩

/-- C5 (counterexample): with income 12, no down payment, no debts and rate
6.5, the down payment 0 is strictly below 20 percent of the computed home
price 68, yet the PMI component is 0 (the monthly premium on the 68-unit
loan rounds to zero), refuting the strictly-positive half of the claim. -/
theorem pmi_zero_below_threshold :
    tinyIncomeParams.downPayment < (maxHomePrice tinyIncomeParams : ℚ) * 0.2
      ∧ (calculateAffordability tinyIncomeParams).breakdown.pmi = 0 := by
  have hhp : maxHomePrice tinyIncomeParams = 68 := by
    unfold tinyIncomeParams maxHomePrice maxLoanAmount annuityFactor compoundFactor
      maxMonthlyPayment monthlyIncome monthlyRate numPayments jsRound
    norm_num
  constructor
  · rw [hhp]
    norm_num [tinyIncomeParams]
  · show pmi tinyIncomeParams = 0
    unfold pmi
    rw [hhp, if_pos (by norm_num [tinyIncomeParams])]
    unfold tinyIncomeParams maxLoanAmount annuityFactor compoundFactor
      maxMonthlyPayment monthlyIncome monthlyRate numPayments jsRound
    norm_num

/-- C5 (amended): a down payment of at least 20 percent of the home price
always gives `pmi = 0`; below the threshold the code reports
`round(maxLoanAmount * 0.005 / 12)`, which is strictly positive whenever the
computed loan amount is at least 1200 (so that the monthly premium reaches
the half-unit needed to round up). -/
theorem pmi_threshold_behavior (p : AffordabilityParams) :
    ((maxHomePrice p : ℚ) * 0.2 ≤ p.downPayment →
        (calculateAffordability p).breakdown.pmi = 0)
      ∧ (p.downPayment < (maxHomePrice p : ℚ) * 0.2 →
          (calculateAffordability p).breakdown.pmi
              = jsRound (maxLoanAmount p * 0.005 / 12)
            ∧ (1200 ≤ maxLoanAmount p →
                0 < (calculateAffordability p).breakdown.pmi)) := by
  constructor
  · intro h
    show pmi p = 0
    unfold pmi
    rw [if_neg (not_lt.mpr h)]
  · intro h
    have hpmi : pmi p = jsRound (maxLoanAmount p * 0.005 / 12) := by
      unfold pmi
      rw [if_pos h]
    refine ⟨hpmi, fun hloan => ?_⟩
    show 0 < pmi p
    rw [hpmi]
    apply jsRound_pos
    nlinarith

/-- C5 (witness): the below-threshold branch instantiated at the spec's
sample input, where the loan is large and PMI comes out strictly positive. -/
theorem pmi_threshold_witness :
    sampleParams.downPayment < (maxHomePrice sampleParams : ℚ) * 0.2
      ∧ 0 < (calculateAffordability sampleParams).breakdown.pmi := by
  have hhp : maxHomePrice sampleParams = 532381 := by
    unfold sampleParams maxHomePrice maxLoanAmount annuityFactor compoundFactor
      maxMonthlyPayment monthlyIncome monthlyRate numPayments jsRound
    norm_num
  have hbelow : sampleParams.downPayment < (maxHomePrice sampleParams : ℚ) * 0.2 := by
    rw [hhp]
    norm_num [sampleParams]
  have hloan : (1200 : ℚ) ≤ maxLoanAmount sampleParams := by
    unfold sampleParams maxLoanAmount annuityFactor compoundFactor
      maxMonthlyPayment monthlyIncome monthlyRate numPayments
    norm_num
  exact ⟨hbelow, ((pmi_threshold_behavior sampleParams).2 hbelow).2 hloan⟩

/-- C6: holding every other field fixed (at any valid, hence positive,
interest rate — the dispatcher always supplies the 6.5 default), a larger
down payment never decreases the computed maximum home price, and larger
monthly debts never increase it. -/
theorem maxHomePrice_monotone (ai dp dp' cs md md' ir : ℚ) (hrate : 0 < ir) :
    (dp ≤ dp' →
        (calculateAffordability ⟨ai, dp, cs, md, ir⟩).maxHomePrice
          ≤ (calculateAffordability ⟨ai, dp', cs, md, ir⟩).maxHomePrice)
      ∧ (md ≤ md' →
        (calculateAffordability ⟨ai, dp, cs, md', ir⟩).maxHomePrice
          ≤ (calculateAffordability ⟨ai, dp, cs, md, ir⟩).maxHomePrice) := by
  constructor
  · intro h
    show maxHomePrice ⟨ai, dp, cs, md, ir⟩ ≤ maxHomePrice ⟨ai, dp', cs, md, ir⟩
    unfold maxHomePrice
    apply jsRound_le_jsRound
    show maxLoanAmount ⟨ai, dp, cs, md, ir⟩ + dp
        ≤ maxLoanAmount ⟨ai, dp', cs, md, ir⟩ + dp'
    have e : maxLoanAmount ⟨ai, dp, cs, md, ir⟩
        = maxLoanAmount ⟨ai, dp', cs, md, ir⟩ := rfl
    linarith [e]
  · intro h
    show maxHomePrice ⟨ai, dp, cs, md', ir⟩ ≤ maxHomePrice ⟨ai, dp, cs, md, ir⟩
    unfold maxHomePrice
    apply jsRound_le_jsRound
    show maxLoanAmount ⟨ai, dp, cs, md', ir⟩ + dp
        ≤ maxLoanAmount ⟨ai, dp, cs, md, ir⟩ + dp
    have hf : 0 < annuityFactor ⟨ai, dp, cs, md, ir⟩ := annuityFactor_pos hrate
    have e : annuityFactor ⟨ai, dp, cs, md', ir⟩
        = annuityFactor ⟨ai, dp, cs, md, ir⟩ := rfl
    have hm : maxLoanAmount ⟨ai, dp, cs, md', ir⟩
        ≤ maxLoanAmount ⟨ai, dp, cs, md, ir⟩ := by
      unfold maxLoanAmount
      rw [e]
      apply mul_le_mul_of_nonneg_right _ hf.le
      show ai / 12 * 0.43 - md' ≤ ai / 12 * 0.43 - md
      linarith
    linarith

/-- C6 (witness): both monotonicity directions instantiated at concrete
inputs around the spec's sample borrower, with every hypothesis discharged
there. -/
theorem maxHomePrice_monotone_witness :
    (calculateAffordability ⟨95000, 50000, 740, 450, 6.5⟩).maxHomePrice
        ≤ (calculateAffordability ⟨95000, 60000, 740, 450, 6.5⟩).maxHomePrice
      ∧ (calculateAffordability ⟨95000, 50000, 740, 500, 6.5⟩).maxHomePrice
        ≤ (calculateAffordability ⟨95000, 50000, 740, 450, 6.5⟩).maxHomePrice := by
  have h := maxHomePrice_monotone 95000 50000 60000 740 450 500 6.5 (by norm_num)
  exact ⟨h.1 (by norm_num), h.2 (by norm_num)⟩

/-- C8: two affordability runs that differ only in the credit score agree on
every output field except the echoed credit score itself — the score never
reaches the rate, loan, price, payment, DTI or breakdown computations. -/
theorem creditScore_noninterference (ai dp md ir cs cs' : ℚ) :
    (calculateAffordability ⟨ai, dp, cs, md, ir⟩).maxHomePrice
        = (calculateAffordability ⟨ai, dp, cs', md, ir⟩).maxHomePrice
      ∧ (calculateAffordability ⟨ai, dp, cs, md, ir⟩).monthlyPayment
        = (calculateAffordability ⟨ai, dp, cs', md, ir⟩).monthlyPayment
      ∧ (calculateAffordability ⟨ai, dp, cs, md, ir⟩).loanAmount
        = (calculateAffordability ⟨ai, dp, cs', md, ir⟩).loanAmount
      ∧ (calculateAffordability ⟨ai, dp, cs, md, ir⟩).downPayment
        = (calculateAffordability ⟨ai, dp, cs', md, ir⟩).downPayment
      ∧ (calculateAffordability ⟨ai, dp, cs, md, ir⟩).interestRate
        = (calculateAffordability ⟨ai, dp, cs', md, ir⟩).interestRate
      ∧ (calculateAffordability ⟨ai, dp, cs, md, ir⟩).dtiRatio
        = (calculateAffordability ⟨ai, dp, cs', md, ir⟩).dtiRatio
      ∧ (calculateAffordability ⟨ai, dp, cs, md, ir⟩).breakdown
        = (calculateAffordability ⟨ai, dp, cs', md, ir⟩).breakdown
      ∧ (calculateAffordability ⟨ai, dp, cs, md, ir⟩).creditScore = cs
      ∧ (calculateAffordability ⟨ai, dp, cs', md, ir⟩).creditScore = cs' :=
  ⟨rfl, rfl, rfl, rfl, rfl, rfl, rfl, rfl, rfl⟩

/-- C4 (counterexample): with a configured provider whose search call
throws, the `zillow_property_search` handler at the spec's example input
(Seattle, 3 bedrooms) returns the catch branch — an error-flagged response
with no structured payload at all — not the two-item mock list with
`usingMockData: true` that the claim promises for a failing provider. -/
theorem propertySearch_failing_provider_is_error_response :
    (zillowPropertySearch ProviderState.failing seattleSearchArgs).isError = true
      ∧ (zillowPropertySearch ProviderState.failing seattleSearchArgs).structuredContent = none
      ∧ ¬ ∃ s, (zillowPropertySearch ProviderState.failing seattleSearchArgs).structuredContent
            = some s
          ∧ s.usingMockData = true ∧ s.properties.length = 2 := by
  refine ⟨rfl, rfl, ?_⟩
  rintro ⟨s, hs, -⟩
  simp [zillowPropertySearch] at hs

/-- C4 (amended): only the unconfigured-provider path returns the two-item
fallback list with `usingMockData: true`; a configured provider whose call
throws lands in the catch, which returns an error-flagged response with no
structured payload.  Neither path throws past the dispatcher boundary: the
handler is a total function of the provider state. -/
theorem propertySearch_fallback_behavior (args : PropertySearchArgs) :
    ((zillowPropertySearch ProviderState.unconfigured args).isError = false
      ∧ ∃ s, (zillowPropertySearch ProviderState.unconfigured args).structuredContent = some s
          ∧ s.usingMockData = true
          ∧ s.properties = mockProperties args
          ∧ s.properties.length = 2)
    ∧ ((zillowPropertySearch ProviderState.failing args).isError = true
      ∧ (zillowPropertySearch ProviderState.failing args).structuredContent = none) :=
  ⟨⟨rfl, ⟨_, rfl, rfl, rfl, rfl⟩⟩, rfl, rfl⟩

/-- One iteration of the areas loop under a `for-rent` intent leaves the
call trace unchanged or appends a single ForRent search: the line-464 guard
rules the ForSale search out. -/
theorem processCandidate_forRent_calls (loc : String) (st : AreaLoopState)
    (cd : AreaCandidateData) :
    (processCandidate (some AreaIntent.forRent) loc st cd).calls = st.calls
      ∨ (processCandidate (some AreaIntent.forRent) loc st cd).calls
        = st.calls ++ [StatusType.ForRent] := by
  unfold processCandidate
  by_cases hc : (jsTruthyNum cd.cand.lat && jsTruthyNum cd.cand.lng) = true
  · rw [if_pos hc]
    simp only [saleIntent, rentIntent, Bool.false_eq_true, if_false, if_true]
    cases cd.rentOutcome <;> simp
  · rw [if_neg hc]
    left
    rfl

/-- C7: an `AreaLookup` invocation with intent `for-rent` never issues a
ForSale coordinate search against the provider, whatever candidates the
location resolution produced and however the provider behaves. -/
theorem areaLookup_forRent_issues_no_forSale (loc : String)
    (cds : List AreaCandidateData) :
    StatusType.ForSale ∉ (runAreaLoop (some AreaIntent.forRent) loc cds).calls := by
  unfold runAreaLoop
  have main : ∀ (l : List AreaCandidateData) (st : AreaLoopState),
      StatusType.ForSale ∉ st.calls →
      StatusType.ForSale
        ∉ (l.foldl (processCandidate (some AreaIntent.forRent) loc) st).calls := by
    intro l
    induction l with
    | nil => exact fun st h => h
    | cons hd tl ih =>
      intro st h
      apply ih
      rcases processCandidate_forRent_calls loc st hd with he | he
      · rw [he]
        exact h
      · rw [he]
        intro hmem
        rcases List.mem_append.mp hmem with h1 | h2
        · exact h h1
        · simp at h2
  exact main (cds.take 5) ⟨[], [], []⟩ (by simp)

/-- The featured-property pushes of one iteration only ever append records
whose `price` field is the `propertyCount` passed in. -/
theorem pushFeatured_appends_with_count (c : ℕ) (d : Option String)
    (props : List ApiProp) (featured : List FeaturedProperty) :
    ∃ young : List FeaturedProperty,
      pushFeatured c d props featured = featured ++ young
        ∧ ∀ fp ∈ young, fp.price = c := by
  unfold pushFeatured
  split
  · have main : ∀ (l : List ApiProp) (acc : List FeaturedProperty),
        ∃ young,
          l.foldl (fun acc prop =>
              if acc.length < 8 then acc ++ [mkFeaturedProperty c d prop] else acc) acc
            = acc ++ young
          ∧ ∀ fp ∈ young, fp.price = c := by
      intro l
      induction l with
      | nil => exact fun acc => ⟨[], by simp, by simp⟩
      | cons hd tl ih =>
        intro acc
        simp only [List.foldl_cons]
        split
        · obtain ⟨young, hy, hprice⟩ := ih (acc ++ [mkFeaturedProperty c d hd])
          refine ⟨[mkFeaturedProperty c d hd] ++ young, ?_, ?_⟩
          · rw [hy, List.append_assoc]
          · intro fp hfp
            rcases List.mem_append.mp hfp with h1 | h2
            · rw [List.mem_singleton.mp h1]
              rfl
            · exact hprice fp h2
        · exact ih acc
    exact main (props.take 2) featured
  · exact ⟨[], by simp, by simp⟩

/-- C9: on the live path, whenever an iteration of the areas loop issues a
ForSale coordinate search that succeeds with result `r`, every featured
property pushed in that iteration carries `price = r.totalResultCount` — the
`propertyCount` of the `AreaSummary` pushed for the same candidate — and the
individual listing prices are discarded. -/
theorem featured_price_is_area_saleCount
    (intent : Option AreaIntent) (loc : String) (st : AreaLoopState)
    (cd : AreaCandidateData) (r : SearchResult)
    (hsale : saleIntent intent = true)
    (hlat : jsTruthyNum cd.cand.lat = true)
    (hlng : jsTruthyNum cd.cand.lng = true)
    (hok : cd.saleOutcome = CallOutcome.ok r) :
    ∃ (young : List FeaturedProperty) (a : AreaSummary),
      (processCandidate intent loc st cd).featured = st.featured ++ young
        ∧ (processCandidate intent loc st cd).areas = st.areas ++ [a]
        ∧ a.propertyCount = r.totalResultCount
        ∧ ∀ fp ∈ young, fp.price = a.propertyCount := by
  obtain ⟨young, hy, hp⟩ :=
    pushFeatured_appends_with_count r.totalResultCount cd.cand.display r.props st.featured
  by_cases hrent : rentIntent intent = true
  · cases hro : cd.rentOutcome with
    | thrown =>
      refine ⟨young, mkAreaSummary loc cd.cand r.totalResultCount 0, ?_, ?_, rfl, hp⟩ <;>
        simp [processCandidate, hlat, hlng, hsale, hok, hrent, hro, hy]
    | ok rr =>
      refine ⟨young, mkAreaSummary loc cd.cand r.totalResultCount rr.totalResultCount,
          ?_, ?_, rfl, hp⟩ <;>
        simp [processCandidate, hlat, hlng, hsale, hok, hrent, hro, hy]
  · refine ⟨young, mkAreaSummary loc cd.cand r.totalResultCount 0, ?_, ?_, rfl, hp⟩ <;>
      simp [processCandidate, hlat, hlng, hsale, hok, hrent, hy]

/-- C9 (witness): the statement instantiated at a concrete candidate whose
for-sale search succeeds with 42 total results, all hypotheses discharged
there. -/
theorem featured_price_witness :
    saleIntent none = true
      ∧ jsTruthyNum austinCand.cand.lat = true
      ∧ jsTruthyNum austinCand.cand.lng = true
      ∧ austinCand.saleOutcome = CallOutcome.ok austinResult
      ∧ ∃ (young : List FeaturedProperty) (a : AreaSummary),
          (processCandidate none "Austin, TX" ⟨[], [], []⟩ austinCand).featured
              = (⟨[], [], []⟩ : AreaLoopState).featured ++ young
            ∧ (processCandidate none "Austin, TX" ⟨[], [], []⟩ austinCand).areas
              = (⟨[], [], []⟩ : AreaLoopState).areas ++ [a]
            ∧ a.propertyCount = austinResult.totalResultCount
            ∧ ∀ fp ∈ young, fp.price = a.propertyCount := by
  have hlat : jsTruthyNum austinCand.cand.lat = true := by
    simp [austinCand, jsTruthyNum]
  have hlng : jsTruthyNum austinCand.cand.lng = true := by
    simp [austinCand, jsTruthyNum]
  exact ⟨rfl, hlat, hlng, rfl,
    featured_price_is_area_saleCount none "Austin, TX" ⟨[], [], []⟩ austinCand
      austinResult rfl hlat hlng rfl⟩

/-- C10: a caller-supplied 0 is indistinguishable from an omitted field both
in the affordability handler (the `|| default` substitutions of lines
631-636 of `server.ts`) and in the search client (the `if (params.x)`
filter guards of lines 232-240 of `zillow-api.ts`, which drop a 0 bound
from the outbound query). -/
theorem zero_input_indistinguishable_from_omitted
    (args : AffordabilityArgs) (p : ClientSearchParams) :
    calculateHomeAffordabilityInputs { args with annualIncome := some 0 }
        = calculateHomeAffordabilityInputs { args with annualIncome := none }
      ∧ calculateHomeAffordabilityInputs { args with downPayment := some 0 }
        = calculateHomeAffordabilityInputs { args with downPayment := none }
      ∧ calculateHomeAffordabilityInputs { args with creditScore := some 0 }
        = calculateHomeAffordabilityInputs { args with creditScore := none }
      ∧ calculateHomeAffordabilityInputs { args with monthlyDebts := some 0 }
        = calculateHomeAffordabilityInputs { args with monthlyDebts := none }
      ∧ (calculateHomeAffordabilityInputs { args with annualIncome := some 0 }).annualIncome
        = 75000
      ∧ (calculateHomeAffordabilityInputs { args with downPayment := some 0 }).downPayment
        = 50000
      ∧ (calculateHomeAffordabilityInputs { args with creditScore := some 0 }).creditScore
        = 720
      ∧ (calculateHomeAffordabilityInputs { args with monthlyDebts := some 0 }).monthlyDebts
        = 500
      ∧ searchPropertiesApiParams { p with minPrice := some 0 }
        = searchPropertiesApiParams { p with minPrice := none }
      ∧ searchPropertiesApiParams { p with maxPrice := some 0 }
        = searchPropertiesApiParams { p with maxPrice := none }
      ∧ searchPropertiesApiParams { p with bathsMin := some 0 }
        = searchPropertiesApiParams { p with bathsMin := none }
      ∧ searchPropertiesApiParams { p with bedsMin := some 0 }
        = searchPropertiesApiParams { p with bedsMin := none }
      ∧ searchPropertiesApiParams { p with sqftMin := some 0 }
        = searchPropertiesApiParams { p with sqftMin := none }
      ∧ searchPropertiesApiParams { p with sqftMax := some 0 }
        = searchPropertiesApiParams { p with sqftMax := none }
      ∧ (searchPropertiesApiParams { p with minPrice := some 0 }).minPrice = none := by
  refine ⟨?_, ?_, ?_, ?_, ?_, ?_, ?_, ?_, ?_, ?_, ?_, ?_, ?_, ?_, ?_⟩ <;>
    simp [calculateHomeAffordabilityInputs, searchPropertiesApiParams,
      jsNumOr, jsNumFilter]

end Zillow
